import Mathlib

/-!
Verification development for the vehicle-inventory reconciliation scraper
(`car_scraper.py`).  The Python program is shallowly embedded: Python scalar
values become `PyVal`, JSON payloads from the listings API become `JVal`/`Obj`,
and each relevant Python function becomes a Lean definition of the same name.
Network interaction is modelled by an oracle (`SearchNet`) supplying the
responses the session would receive, and the sequence of side effects a search
performs is reified as a trace of `Ev` events.
-/

namespace CarScraper

/-- A Python scalar value as it appears in a CSV row dictionary
(`row.to_dict()`): a string, an int, the float NaN that pandas uses for
missing cells, or Python `None`. -/
inductive PyVal where
  | vstr (s : String)
  | vint (n : Int)
  | vnan
  | vnone
deriving DecidableEq

/-- Python `str(x)` on a scalar value (`str(float("nan")) = "nan"`,
`str(None) = "None"`). -/
def pyStr : PyVal → String
  | .vstr s => s
  | .vint n => toString n
  | .vnan => "nan"
  | .vnone => "None"

/-- Python truthiness of a scalar value: empty string and `0` are falsy,
NaN is truthy, `None` is falsy. -/
def pyTruthy : PyVal → Bool
  | .vstr s => if s = "" then false else true
  | .vint n => if n = 0 then false else true
  | .vnan => true
  | .vnone => false

/-- `pd.isna`: true exactly on the missing-value sentinels (NaN, None);
false on every string and int. -/
def pdIsna : PyVal → Bool
  | .vnan => true
  | .vnone => true
  | _ => false

/-- A CSV row dictionary: ordered association list of column name to value. -/
abbrev CsvRow := List (String × PyVal)

/-- Dictionary lookup on a CSV row (`key in row` + `row[key]`, first match). -/
def rget : CsvRow → String → Option PyVal
  | [], _ => none
  | (k, v) :: rest, key => if k = key then some v else rget rest key

mutual
/-- A JSON value in an API response: string, integer, null, or object. -/
inductive JVal where
  | str (s : String)
  | num (n : Int)
  | null
  | jdict (o : Obj)

/-- A JSON object: ordered association list of string keys to JSON values. -/
inductive Obj where
  | nil
  | cons (k : String) (v : JVal) (rest : Obj)
end

/-- Object key lookup (`d.get(key)`). -/
def oget : Obj → String → Option JVal
  | .nil, _ => none
  | .cons k v rest, key => if k = key then some v else oget rest key

mutual
/-- The path walk of the comparison loop: starting from a value, descend into
dict entries key by key; a non-dict intermediate value or a missing key
yields `none` (Python sets `api_value = None` and breaks). -/
def getPath : JVal → List String → Option JVal
  | v, [] => some v
  | .jdict o, k :: ks => getPathObj o k ks
  | _, _ :: _ => none

def getPathObj : Obj → String → List String → Option JVal
  | .nil, _, _ => none
  | .cons k v rest, key, ks => if k = key then getPath v ks else getPathObj rest key ks
end

/-- Path lookup from a listing object, with JSON `null` collapsed to `none`:
a null leaf is the Python value `None`, indistinguishable from a failed
lookup in the comparison code (`api_value is not None`). -/
def pyGetPath (o : Obj) (path : List String) : Option JVal :=
  match getPath (.jdict o) path with
  | some .null => none
  | r => r

mutual
/-- Python `str(x)` on a JSON-derived value (`str(None) = "None"`, dicts
print with `repr`ed elements). -/
def jStrPy : JVal → String
  | .str s => s
  | .num n => toString n
  | .null => "None"
  | .jdict o => "\x7b" ++ jReprFields o ++ "\x7d"

def jReprFields : Obj → String
  | .nil => ""
  | .cons k v .nil => "\x27" ++ k ++ "\x27: " ++ jReprPy v
  | .cons k v (.cons k2 v2 rest) =>
      "\x27" ++ k ++ "\x27: " ++ jReprPy v ++ ", " ++ jReprFields (.cons k2 v2 rest)

def jReprPy : JVal → String
  | .str s => "\x27" ++ s ++ "\x27"
  | .num n => toString n
  | .null => "None"
  | .jdict o => "\x7b" ++ jReprFields o ++ "\x7d"
end

/-- Python truthiness of a JSON-derived value: empty string, `0`, `None`,
and the empty dict are falsy. -/
def jTruthy : JVal → Bool
  | .str s => if s = "" then false else true
  | .num n => if n = 0 then false else true
  | .null => false
  | .jdict .nil => false
  | .jdict (.cons _ _ _) => true

/-- Python `s.strip()`: drop leading and trailing whitespace. -/
def pyStrip (s : String) : String :=
  String.mk (((s.data.dropWhile Char.isWhitespace).reverse.dropWhile Char.isWhitespace).reverse)

/-- Python `s.replace(",", "")`: remove every comma. -/
def stripCommas (s : String) : String :=
  String.mk (s.data.filter (fun c => c != ','))

/-- Python `s.lower()` (ASCII case folding). -/
def pyLower (s : String) : String :=
  String.mk (s.data.map Char.toLower)

/-- Digit run of a Python int literal: digits with single underscores allowed
between digits (accumulator continues from the first digit). -/
def pyDigitsAux : List Char → Nat → Option Nat
  | [], acc => some acc
  | c :: cs, acc =>
    if c.isDigit then pyDigitsAux cs (acc * 10 + (c.toNat - 48))
    else if c = '_' then
      match cs with
      | d :: _ => if d.isDigit then pyDigitsAux cs acc else none
      | [] => none
    else none

/-- A nonempty digit run must start with a digit. -/
def pyDigitsStart : List Char → Option Nat
  | [] => none
  | c :: cs => if c.isDigit then pyDigitsAux cs (c.toNat - 48) else none

/-- Python `int(s)` on a string: optional surrounding whitespace, optional
sign, decimal digits (with underscores between digits); `none` models the
`ValueError` raised on anything else. -/
def pyIntOfString (s : String) : Option Int :=
  match (pyStrip s).data with
  | [] => none
  | '-' :: rest => (pyDigitsStart rest).map (fun n => -(n : Int))
  | '+' :: rest => (pyDigitsStart rest).map (fun n => (n : Int))
  | cs => (pyDigitsStart cs).map (fun n => (n : Int))

/-- The status short-circuit at the top of `autotrader_compare_data` /
`carsguide_compare_data`: `status = vehicle_data.get('status')`;
`if status and status.lower() != 'live'` return `Sold` / `On Offer` for those
two statuses; any other non-live status falls through to field comparison.
A truthy non-string status would raise `AttributeError` on `.lower()`,
modelled as `Except.error`; `none` means the comparison loop is reached. -/
def statusVerdict : Option JVal → Option (Except String (String × List String))
  | some (JVal.str s) =>
      if s = "" then none
      else if pyLower s = "live" then none
      else if pyLower s = "sold" then some (.ok ("Sold", []))
      else if pyLower s = "on offer" then some (.ok ("On Offer", []))
      else none
  | some v => if jTruthy v then some (.error "AttributeError: lower") else none
  | none => none

/-- The status short-circuit applied to the listing's `status` entry. -/
def statusCheck (obj : Obj) : Option (Except String (String × List String)) :=
  statusVerdict (oget obj "status")

/-- The `comparison_fields` dict of `autotrader_compare_data`, in insertion
order (source field name, listing path). -/
def autotrader_comparison_fields : List (String × List String) :=
  [("Fuel", ["vehicle", "fuel_type"]),
   ("Model", ["model"]),
   ("Seats", ["vehicle", "seats"]),
   ("Doors", ["vehicle", "doors"]),
   ("Transmission", ["vehicle", "transmission_type"]),
   ("Tansmission", ["vehicle", "transmission_type"]),
   ("Price", ["price", "advertised_price"])]

/-- The `comparison_fields` dict of `carsguide_compare_data` (textually
identical to the AutoTrader one). -/
def carsguide_comparison_fields : List (String × List String) :=
  [("Fuel", ["vehicle", "fuel_type"]),
   ("Model", ["model"]),
   ("Seats", ["vehicle", "seats"]),
   ("Doors", ["vehicle", "doors"]),
   ("Transmission", ["vehicle", "transmission_type"]),
   ("Tansmission", ["vehicle", "transmission_type"]),
   ("Price", ["price", "advertised_price"])]

/-- One iteration of the comparison loop shared by both compare functions:
skip when the source field is absent or falsy, skip when the listing path
yields no value; Price is compared numerically with a 100-unit tolerance
(parse failure notes "Couldn\x27t compare"), every other field as
case-insensitive stripped strings. Returns the appended note, if any. -/
def fieldCheck (csv : CsvRow) (obj : Obj) (entry : String × List String) : Option String :=
  match rget csv entry.1 with
  | none => none
  | some v =>
    if pyTruthy v then
      match pyGetPath obj entry.2 with
      | none => none
      | some a =>
        if entry.1 = "Price" then
          match pyIntOfString (stripCommas (pyStrip (pyStr v))),
                pyIntOfString (stripCommas (pyStrip (jStrPy a))) with
          | some cp, some ap =>
              if 100 < (cp - ap).natAbs then
                some (entry.1 ++ ": CSV=" ++ toString cp ++ ", API=" ++ toString ap)
              else none
          | _, _ => some (entry.1 ++ ": Couldn\x27t compare")
        else
          let cs := pyStrip (pyStr v)
          let asv := pyStrip (jStrPy a)
          if pyLower cs = pyLower asv then none
          else some (entry.1 ++ ": CSV=" ++ cs ++ ", API=" ++ asv)
    else none

/-- `autotrader_compare_data(csv_data, vehicle_data)`: `Not Found` on a
missing or empty listing, status short-circuit, then the field-comparison
loop; `Mismatched` when any note was recorded, else `Found`. -/
def autotrader_compare_data (csv : CsvRow) (vd : Option Obj) :
    Except String (String × List String) :=
  match vd with
  | none => .ok ("Not Found", [])
  | some Obj.nil => .ok ("Not Found", [])
  | some obj =>
    match statusCheck obj with
    | some r => r
    | none =>
      let mismatched := autotrader_comparison_fields.filterMap (fieldCheck csv obj)
      if mismatched = [] then .ok ("Found", []) else .ok ("Mismatched", mismatched)

/-- `carsguide_compare_data(csv_data, vehicle_data)`: body identical to the
AutoTrader comparison, over the Carsguide copy of the field map. -/
def carsguide_compare_data (csv : CsvRow) (vd : Option Obj) :
    Except String (String × List String) :=
  match vd with
  | none => .ok ("Not Found", [])
  | some Obj.nil => .ok ("Not Found", [])
  | some obj =>
    match statusCheck obj with
    | some r => r
    | none =>
      let mismatched := carsguide_comparison_fields.filterMap (fieldCheck csv obj)
      if mismatched = [] then .ok ("Found", []) else .ok ("Mismatched", mismatched)

/-- `extract_vehicle_url(vehicle_data, site_type)`: empty for a missing or
falsy listing; the relative path is `url` or, when that is falsy, `url_cg`;
a falsy path yields `""`; the two known site types prefix their fixed
domain (any other site type returns the bare path). -/
def extract_vehicle_url (vd : Option Obj) (site_type : String) : String :=
  match vd with
  | none => ""
  | some Obj.nil => ""
  | some obj =>
    let upath :=
      let a := (oget obj "url").getD (.str "")
      if jTruthy a then a else (oget obj "url_cg").getD (.str "")
    if jTruthy upath then
      if site_type = "autotrader" then "https://www.autotrader.com.au/" ++ jStrPy upath
      else if site_type = "carsguide" then "https://www.carsguide.com.au/" ++ jStrPy upath
      else jStrPy upath
    else ""

/-- A parsed search API response body `{ "data": [...] }`: `data` is the
optional hit array (`none` models a body without a `data` key).  Each hit is
modelled by its `_source` listing object, the only member the program reads. -/
structure ApiResult where
  data : Option (List Obj)

/-- `result.get('data') and len(result['data']) > 0`. -/
def dataNonempty (r : ApiResult) : Bool :=
  match r.data with
  | some (_ :: _) => true
  | _ => false

/-- `autotrader_extract_vehicle_data` / `carsguide_extract_vehicle_data`
(identical): `None` unless the response holds at least one hit, else the
first hit's `_source` object. -/
def extract_vehicle_data : Option ApiResult → Option Obj
  | none => none
  | some r =>
    match r.data with
    | some (h :: _) => some h
    | _ => none

/-- `source` entry of the fallback parameter dict (present for Carsguide). -/
def fb_source : Option String → List (String × String)
  | some s => [("source", s)]
  | none => []

/-- `make` entry: present when the CSV has a truthy, non-NA `Make`;
the value is `str(...).strip()` of the cell. -/
def fb_make (row : CsvRow) : List (String × String) :=
  match rget row "Make" with
  | some v => if pyTruthy v && !(pdIsna v) then [("make", pyStrip (pyStr v))] else []
  | none => []

/-- `model` entry of the fallback parameter dict. -/
def fb_model (row : CsvRow) : List (String × String) :=
  match rget row "Model" with
  | some v => if pyTruthy v && !(pdIsna v) then [("model", pyStrip (pyStr v))] else []
  | none => []

/-- `manu_year` entry of the fallback parameter dict. -/
def fb_year (row : CsvRow) : List (String × String) :=
  match rget row "Year" with
  | some v => if pyTruthy v && !(pdIsna v) then [("manu_year", pyStrip (pyStr v))] else []
  | none => []

/-- `priceFrom`/`priceTo` entries: CSV `Price` parsed as
`int(str(x).strip().replace(',', ''))`, range value±100; a parse failure
only logs a warning and adds nothing. -/
def fb_price (row : CsvRow) : List (String × String) :=
  match rget row "Price" with
  | some v =>
    if pyTruthy v && !(pdIsna v) then
      match pyIntOfString (stripCommas (pyStrip (pyStr v))) with
      | some p => [("priceFrom", toString (p - 100)), ("priceTo", toString (p + 100))]
      | none => []
    else []
  | none => []

/-- `odometerFrom`/`odometerTo` entries from the CSV `KM` cell, range
value±100 (parse failure adds nothing). -/
def fb_km (row : CsvRow) : List (String × String) :=
  match rget row "KM" with
  | some v =>
    if pyTruthy v && !(pdIsna v) then
      match pyIntOfString (stripCommas (pyStrip (pyStr v))) with
      | some p => [("odometerFrom", toString (p - 100)), ("odometerTo", toString (p + 100))]
      | none => []
    else []
  | none => []

/-- `build_fallback_search_params(csv_row, dealer_id, source)`: the four
base entries, then (in dict insertion order) source, make, model, year,
price range, odometer range. -/
def build_fallback_search_params (row : CsvRow) (dealer_id : String)
    (source : Option String) : List (String × String) :=
  [("dealer_id", dealer_id), ("ipLookup", "1"),
   ("sorting_variation", "smart_sort_3"), ("paginate", "26")]
  ++ fb_source source ++ fb_make row ++ fb_model row ++ fb_year row
  ++ fb_price row ++ fb_km row

/-- Primary AutoTrader query parameters: stock number and dealer id. -/
def autotrader_primary_params (stock_no dealer_id : String) : List (String × String) :=
  [("stock_no", stock_no), ("dealer_id", dealer_id)]

/-- The rotated user-agent string installed on a 403 response. -/
def autotrader_retry_ua : String :=
  "Mozilla/5.0 (Windows NT 10.0; Win64; x64) AppleWebKit/537.36 (KHTML, like Gecko) Chrome/139.0.0.0 Safari/537.36 Edg/139.0.0.0"

/-- Observable side effects of one provider lookup, in order:
cookie bootstrap, the randomized pacing sleeps (`add_delay(lo, hi)` and the
5–8 unit anti-bot wait), the user-agent rotation, and each HTTP GET with
its query parameters. -/
inductive Ev where
  | getCookies
  | delay (lo hi : Nat)
  | sleepUniform (lo hi : Nat)
  | setUserAgent (ua : String)
  | httpGet (params : List (String × String))
deriving DecidableEq

/-- Network oracle for one provider lookup: the outcome of the cookie
bootstrap, and status code plus parsed body for the primary request, the
post-403 retry, and the fallback request.  `rebootstrapOk` is the outcome
of the re-bootstrap during 403 recovery, whose result the code ignores. -/
structure SearchNet where
  bootstrapOk : Bool
  primaryCode : Nat
  primaryBody : ApiResult
  rebootstrapOk : Bool
  retryCode : Nat
  retryBody : ApiResult
  fallbackCode : Nat
  fallbackBody : ApiResult

/-- `autotrader_search_vehicle(session, stock_no, dealer_id, csv_row)` over
the network oracle, returning the result (`none` is the Python `None`
error sentinel) together with the trace of side effects:
bootstrap failure aborts; a 200 primary with hits returns them; a 200
primary with no hits triggers the fallback when a CSV row is available
(a failed or empty fallback falls back to returning the primary's empty
result); a 403 primary sleeps 5–8, rotates the user agent, re-bootstraps,
and retries the primary query once; any other status returns `None`. -/
def autotrader_search_vehicle (net : SearchNet) (stock_no dealer_id : String)
    (csv_row : Option CsvRow) : Option ApiResult × List Ev :=
  if net.bootstrapOk = false then (none, [.getCookies])
  else
    let prim := autotrader_primary_params stock_no dealer_id
    let evs : List Ev := [.getCookies, .delay 1 3, .httpGet prim]
    if net.primaryCode = 200 then
      if dataNonempty net.primaryBody then (some net.primaryBody, evs)
      else
        match csv_row with
        | some row =>
          let fb := build_fallback_search_params row dealer_id none
          let evs2 := evs ++ [.delay 1 2, .httpGet fb]
          if net.fallbackCode = 200 then
            if dataNonempty net.fallbackBody then (some net.fallbackBody, evs2)
            else (some net.primaryBody, evs2)
          else (some net.primaryBody, evs2)
        | none => (some net.primaryBody, evs)
    else if net.primaryCode = 403 then
      let evs2 := evs ++ [.sleepUniform 5 8, .setUserAgent autotrader_retry_ua,
                          .getCookies, .httpGet prim]
      if net.retryCode = 200 then (some net.retryBody, evs2) else (none, evs2)
    else (none, evs)

/-- The six per-record output columns written by `process_csv_file`. -/
structure RowOut where
  atStatus : String
  atNotes : String
  atUrl : String
  cgStatus : String
  cgNotes : String
  cgUrl : String
deriving DecidableEq

/-- The identity-key guard of `process_csv_file`: `year` and `stock_no` are
`str(row.get(..., ''))`, and the row is skipped when either string is empty
or `pd.isna` holds of it — note the code applies `pd.isna` to the already
`str()`-converted values. -/
def rowSkip (row : CsvRow) : Bool :=
  let year := pyStr ((rget row "Year").getD (.vstr ""))
  let stock_no := pyStr ((rget row "StockNo").getD (.vstr ""))
  if year = "" then true
  else if stock_no = "" then true
  else if pdIsna (.vstr year) then true
  else if pdIsna (.vstr stock_no) then true
  else false

/-- The per-record `except` branch: both providers marked `Error`, the
message in both Notes columns, both URLs cleared. -/
def rowError (m : String) : RowOut :=
  ⟨"Error", "Error processing: " ++ m, "", "Error", "Error processing: " ++ m, ""⟩

/-- One provider's result handling inside `process_csv_file`: `API Error`
when the search returned the `None` sentinel or a body without a `data` key;
`Not Found` when the hit list is empty; otherwise extract the first listing,
reconcile (`cmp`), join mismatch notes with "; " and derive the URL.  An
exception escaping the compare propagates (`Except.error`) to the
per-record boundary. -/
def processProvider (row : CsvRow) (res : Option ApiResult) (site label : String)
    (cmp : CsvRow → Option Obj → Except String (String × List String)) :
    Except String (String × String × String) :=
  match res with
  | none => .ok ("API Error", "Failed to retrieve data from " ++ label ++ " API", "")
  | some r =>
    match r.data with
    | none => .ok ("API Error", "Failed to retrieve data from " ++ label ++ " API", "")
    | some hits =>
      if hits.length = 0 then
        .ok ("Not Found", "Vehicle not found in " ++ label ++ " API", "")
      else
        match cmp row (extract_vehicle_data (some r)) with
        | .error e => .error e
        | .ok (st, mism) =>
          .ok (st, (if mism = [] then "" else String.intercalate "; " mism),
               extract_vehicle_url (extract_vehicle_data (some r)) site)

/-- One iteration of the row loop of `process_csv_file`: the identity-key
skip, then (inside the per-record `try`) the AutoTrader and Carsguide
phases; `inj` injects an exception raised by the lookup machinery itself,
and any exception lands in the `except` branch that fills all six columns
with the `Error` marking. -/
def processRow (row : CsvRow) (atRes cgRes : Option ApiResult)
    (inj : Option String) : RowOut :=
  if rowSkip row then
    ⟨"Not Searched", "Missing Year or StockNo", "",
     "Not Searched", "Missing Year or StockNo", ""⟩
  else
    match inj with
    | some m => rowError m
    | none =>
      match processProvider row atRes "autotrader" "AutoTrader" autotrader_compare_data with
      | .error m => rowError m
      | .ok (a1, a2, a3) =>
        match processProvider row cgRes "carsguide" "Carsguide" carsguide_compare_data with
        | .error m => rowError m
        | .ok (c1, c2, c3) => ⟨a1, a2, a3, c1, c2, c3⟩

/-- The row loop of `process_csv_file` over a per-row oracle giving each
record's two provider results and a possible injected exception; one output
row is produced per input row, in order. -/
def processCsv : List CsvRow → (Nat → Option ApiResult × Option ApiResult × Option String)
    → Nat → List RowOut
  | [], _, _ => []
  | r :: rs, net, i =>
    processRow r (net i).1 (net i).2.1 (net i).2.2 :: processCsv rs net (i + 1)

/-- Every status string the batch can write into a provider status column. -/
def statusStrings : List String :=
  ["Not Searched", "Not Found", "Found", "Mismatched", "Sold", "On Offer",
   "API Error", "Error"]

/-! ## Helper lemmas -/

/-- A status lowercasing to "sold" short-circuits the status check. -/
lemma statusCheck_sold (obj : Obj) (s : String)
    (hst : oget obj "status" = some (JVal.str s)) (h : pyLower s = "sold") :
    statusCheck obj = some (.ok ("Sold", [])) := by
  have hne : s ≠ "" := by
    intro he
    subst he
    simp [pyLower] at h
  simp [statusCheck, statusVerdict, hst, hne, h]

/-- A status lowercasing to "on offer" short-circuits the status check. -/
lemma statusCheck_on_offer (obj : Obj) (s : String)
    (hst : oget obj "status" = some (JVal.str s)) (h : pyLower s = "on offer") :
    statusCheck obj = some (.ok ("On Offer", [])) := by
  have hne : s ≠ "" := by
    intro he
    subst he
    simp [pyLower] at h
  simp [statusCheck, statusVerdict, hst, hne, h]

/-- When the status check short-circuits, the AutoTrader comparison returns
its verdict directly. -/
lemma autotrader_compare_of_statusCheck (csv : CsvRow) (k : String) (v : JVal)
    (rest : Obj) (r : Except String (String × List String))
    (h : statusCheck (Obj.cons k v rest) = some r) :
    autotrader_compare_data csv (some (Obj.cons k v rest)) = r := by
  simp [autotrader_compare_data, h]

/-- When the status check short-circuits, the Carsguide comparison returns
its verdict directly. -/
lemma carsguide_compare_of_statusCheck (csv : CsvRow) (k : String) (v : JVal)
    (rest : Obj) (r : Except String (String × List String))
    (h : statusCheck (Obj.cons k v rest) = some r) :
    carsguide_compare_data csv (some (Obj.cons k v rest)) = r := by
  simp [carsguide_compare_data, h]

/-! ## Claims -/

/-- Claim C1 (counterexample): the listing status "Pending" is present and
differs case-insensitively from "live", yet the comparison does not return
`Sold` or `On Offer` with an empty mismatch list — it performs the field
comparison and reports a Model mismatch. -/
theorem C1_counterexample :
    oget (Obj.cons "status" (.str "Pending") (Obj.cons "model" (.str "Camry") .nil)) "status"
      = some (JVal.str "Pending")
    ∧ pyLower "Pending" ≠ "live"
    ∧ autotrader_compare_data [("Model", PyVal.vstr "Corolla")]
        (some (Obj.cons "status" (.str "Pending") (Obj.cons "model" (.str "Camry") .nil)))
      = .ok ("Mismatched", ["Model: CSV=Corolla, API=Camry"]) :=
  ⟨rfl, by decide, rfl⟩

/-- Claim C1 (amended): the status short-circuit fires exactly for the two
statuses "sold" and "on offer" (case-insensitively): such a listing yields
outcome `Sold` resp. `On Offer` with an empty mismatch list, regardless of
any differences in the other fields; any other non-"live" status falls
through to field comparison. -/
theorem C1_amended_status_short_circuit (csv : CsvRow) (obj : Obj) (s : String)
    (hst : oget obj "status" = some (JVal.str s)) :
    (pyLower s = "sold" →
        autotrader_compare_data csv (some obj) = .ok ("Sold", []) ∧
        carsguide_compare_data csv (some obj) = .ok ("Sold", []))
    ∧ (pyLower s = "on offer" →
        autotrader_compare_data csv (some obj) = .ok ("On Offer", []) ∧
        carsguide_compare_data csv (some obj) = .ok ("On Offer", [])) := by
  cases obj with
  | nil => simp [oget] at hst
  | cons k v rest =>
    constructor
    · intro h
      exact ⟨autotrader_compare_of_statusCheck _ _ _ _ _ (statusCheck_sold _ _ hst h),
             carsguide_compare_of_statusCheck _ _ _ _ _ (statusCheck_sold _ _ hst h)⟩
    · intro h
      exact ⟨autotrader_compare_of_statusCheck _ _ _ _ _ (statusCheck_on_offer _ _ hst h),
             carsguide_compare_of_statusCheck _ _ _ _ _ (statusCheck_on_offer _ _ hst h)⟩

/-- Claim C1 (witness): a listing with status "SOLD" and a differing Model
is reported `Sold` with an empty mismatch list. -/
theorem C1_witness :
    autotrader_compare_data [("Model", PyVal.vstr "Corolla")]
      (some (Obj.cons "status" (.str "SOLD") (Obj.cons "model" (.str "Camry") .nil)))
      = .ok ("Sold", []) :=
  (C1_amended_status_short_circuit [("Model", PyVal.vstr "Corolla")]
      (Obj.cons "status" (.str "SOLD") (Obj.cons "model" (.str "Camry") .nil))
      "SOLD" rfl).1 (by decide) |>.1

/-- Claim C3 (code evaluation at the failing input): a record whose Year
cell is the NaN missing-value sentinel is NOT skipped — `str()` turns NaN
into the non-empty string "nan" before the `pd.isna` test, so the guard
never fires and the record is searched (here: both providers report
`Not Found` instead of `Not Searched`). -/
theorem C3_nan_year_not_skipped :
    rowSkip [("Year", PyVal.vnan), ("StockNo", PyVal.vstr "T123")] = false
    ∧ processRow [("Year", PyVal.vnan), ("StockNo", PyVal.vstr "T123")]
        (some ⟨some []⟩) (some ⟨some []⟩) none
      = ⟨"Not Found", "Vehicle not found in AutoTrader API", "",
         "Not Found", "Vehicle not found in Carsguide API", ""⟩ :=
  ⟨rfl, rfl⟩

/-- Claim C7: the derived listing URL is the provider's fixed domain prefix
concatenated with the listing's relative path, taken from `url` with
fallback to `url_cg`; a missing listing, or one with neither path, yields
the empty string. -/
theorem C7_url_derivation :
    (∀ site : String, extract_vehicle_url none site = "")
    ∧ (∀ (obj : Obj) (p : String), oget obj "url" = some (JVal.str p) → p ≠ "" →
        extract_vehicle_url (some obj) "autotrader" = "https://www.autotrader.com.au/" ++ p
        ∧ extract_vehicle_url (some obj) "carsguide" = "https://www.carsguide.com.au/" ++ p)
    ∧ (∀ (obj : Obj) (q : String),
        (oget obj "url" = none ∨ oget obj "url" = some (JVal.str "")) →
        oget obj "url_cg" = some (JVal.str q) → q ≠ "" →
        extract_vehicle_url (some obj) "autotrader" = "https://www.autotrader.com.au/" ++ q
        ∧ extract_vehicle_url (some obj) "carsguide" = "https://www.carsguide.com.au/" ++ q)
    ∧ (∀ (obj : Obj) (site : String), oget obj "url" = none → oget obj "url_cg" = none →
        extract_vehicle_url (some obj) site = "") := by
  refine ⟨fun _ => rfl, ?_, ?_, ?_⟩
  · intro obj p hurl hp
    cases obj with
    | nil => simp [oget] at hurl
    | cons k v rest =>
      constructor <;> simp [extract_vehicle_url, hurl, jTruthy, hp, jStrPy]
  · intro obj q hurl hcg hq
    cases obj with
    | nil => simp [oget] at hcg
    | cons k v rest =>
      rcases hurl with h | h <;>
        constructor <;> simp [extract_vehicle_url, h, hcg, jTruthy, hq, jStrPy]
  · intro obj site hurl hcg
    cases obj with
    | nil => rfl
    | cons k v rest => simp [extract_vehicle_url, hurl, hcg, jTruthy]

/-- Claim C7 (witness): `url = "cars/123"` on the AutoTrader provider gives
the full AutoTrader URL, and a listing with neither `url` nor `url_cg`
gives the empty string. -/
theorem C7_witness :
    extract_vehicle_url (some (Obj.cons "url" (.str "cars/123") .nil)) "autotrader"
      = "https://www.autotrader.com.au/cars/123"
    ∧ extract_vehicle_url (some (Obj.cons "make" (.str "Toyota") .nil)) "autotrader" = "" :=
  ⟨(C7_url_derivation.2.1 (Obj.cons "url" (.str "cars/123") .nil) "cars/123" rfl
      (by decide)).1,
   C7_url_derivation.2.2.2 (Obj.cons "make" (.str "Toyota") .nil) "autotrader" rfl rfl⟩

/-- Claim C8: the two providers' reconciliation functions are extensionally
equal, and both field maps list the two source spellings "Transmission" and
"Tansmission" as aliases for the same listing path
`vehicle.transmission_type`. -/
theorem C8_provider_compare_equal :
    (∀ (csv : CsvRow) (vd : Option Obj),
        autotrader_compare_data csv vd = carsguide_compare_data csv vd)
    ∧ autotrader_comparison_fields = carsguide_comparison_fields
    ∧ ("Transmission", ["vehicle", "transmission_type"]) ∈ autotrader_comparison_fields
    ∧ ("Tansmission", ["vehicle", "transmission_type"]) ∈ autotrader_comparison_fields
    ∧ ("Transmission", ["vehicle", "transmission_type"]) ∈ carsguide_comparison_fields
    ∧ ("Tansmission", ["vehicle", "transmission_type"]) ∈ carsguide_comparison_fields :=
  ⟨fun _ _ => rfl, rfl, by decide, by decide, by decide, by decide⟩

/-- Claim C9: the Reconciliation Engine is deterministic and depends only on
its two inputs — equal (SourceRecord, Listing) pairs always produce equal
(status, mismatch-list) results, for both providers.  (The embedding is a
pure function of the two arguments, mirroring the source, which reads no
external state and performs no mutation of its inputs.) -/
theorem C9_compare_deterministic (c₁ c₂ : CsvRow) (v₁ v₂ : Option Obj)
    (hc : c₁ = c₂) (hv : v₁ = v₂) :
    autotrader_compare_data c₁ v₁ = autotrader_compare_data c₂ v₂ ∧
    carsguide_compare_data c₁ v₁ = carsguide_compare_data c₂ v₂ := by
  subst hc
  subst hv
  exact ⟨rfl, rfl⟩

/-- Claim C9 (witness): determinism applied at a concrete pair. -/
theorem C9_witness :
    autotrader_compare_data [("Model", PyVal.vstr "Corolla")] none
      = autotrader_compare_data [("Model", PyVal.vstr "Corolla")] none ∧
    carsguide_compare_data [("Model", PyVal.vstr "Corolla")] none
      = carsguide_compare_data [("Model", PyVal.vstr "Corolla")] none :=
  C9_compare_deterministic _ _ _ _ rfl rfl

/-- When the status check falls through, the AutoTrader comparison is the
field loop's verdict. -/
lemma autotrader_compare_fallthrough (csv : CsvRow) (obj : Obj) (hne : obj ≠ Obj.nil)
    (h : statusCheck obj = none) :
    autotrader_compare_data csv (some obj) =
      (if autotrader_comparison_fields.filterMap (fieldCheck csv obj) = []
       then .ok ("Found", [])
       else .ok ("Mismatched", autotrader_comparison_fields.filterMap (fieldCheck csv obj))) := by
  cases obj with
  | nil => exact absurd rfl hne
  | cons k v rest => simp [autotrader_compare_data, h]

/-- A field whose listing path yields no value is skipped without a note. -/
lemma fieldCheck_none_of_path_none (csv : CsvRow) (obj : Obj) (f : String)
    (p : List String) (h : pyGetPath obj p = none) :
    fieldCheck csv obj (f, p) = none := by
  simp only [fieldCheck]
  cases hr : rget csv f with
  | none => rfl
  | some v => simp [hr, h]

/-- Claim C10: a source field whose mapped path is absent from the listing
is silently skipped with no discrepancy recorded; in particular a listing
with no advertised price contributes no Price note (the mismatch list is
that of the six non-Price fields alone), and a listing where every mapped
path is absent yields `Found` with no mismatches. -/
theorem C10_absent_path_skipped :
    (∀ (csv : CsvRow) (obj : Obj) (f : String) (p : List String),
        pyGetPath obj p = none → fieldCheck csv obj (f, p) = none)
    ∧ (∀ (csv : CsvRow) (obj : Obj), obj ≠ Obj.nil → statusCheck obj = none →
        pyGetPath obj ["price", "advertised_price"] = none →
        autotrader_compare_data csv (some obj) =
          (if [("Fuel", ["vehicle", "fuel_type"]), ("Model", ["model"]),
               ("Seats", ["vehicle", "seats"]), ("Doors", ["vehicle", "doors"]),
               ("Transmission", ["vehicle", "transmission_type"]),
               ("Tansmission", ["vehicle", "transmission_type"])].filterMap
                 (fieldCheck csv obj) = []
           then .ok ("Found", [])
           else .ok ("Mismatched",
             [("Fuel", ["vehicle", "fuel_type"]), ("Model", ["model"]),
              ("Seats", ["vehicle", "seats"]), ("Doors", ["vehicle", "doors"]),
              ("Transmission", ["vehicle", "transmission_type"]),
              ("Tansmission", ["vehicle", "transmission_type"])].filterMap
                (fieldCheck csv obj))))
    ∧ (∀ (csv : CsvRow) (obj : Obj), obj ≠ Obj.nil → statusCheck obj = none →
        (∀ e ∈ autotrader_comparison_fields, pyGetPath obj e.2 = none) →
        autotrader_compare_data csv (some obj) = .ok ("Found", [])) := by
  refine ⟨fieldCheck_none_of_path_none, ?_, ?_⟩
  · intro csv obj hne hsc hp
    rw [autotrader_compare_fallthrough csv obj hne hsc]
    have hfc : fieldCheck csv obj ("Price", ["price", "advertised_price"]) = none :=
      fieldCheck_none_of_path_none csv obj _ _ hp
    have hsplit : autotrader_comparison_fields.filterMap (fieldCheck csv obj)
        = [("Fuel", ["vehicle", "fuel_type"]), ("Model", ["model"]),
           ("Seats", ["vehicle", "seats"]), ("Doors", ["vehicle", "doors"]),
           ("Transmission", ["vehicle", "transmission_type"]),
           ("Tansmission", ["vehicle", "transmission_type"])].filterMap
             (fieldCheck csv obj) := by
      show ([("Fuel", ["vehicle", "fuel_type"]), ("Model", ["model"]),
             ("Seats", ["vehicle", "seats"]), ("Doors", ["vehicle", "doors"]),
             ("Transmission", ["vehicle", "transmission_type"]),
             ("Tansmission", ["vehicle", "transmission_type"])]
            ++ [("Price", ["price", "advertised_price"])]).filterMap (fieldCheck csv obj) = _
      rw [List.filterMap_append]
      simp [hfc]
    rw [hsplit]
  · intro csv obj hne hsc hall
    rw [autotrader_compare_fallthrough csv obj hne hsc]
    have hnil : autotrader_comparison_fields.filterMap (fieldCheck csv obj) = [] := by
      rw [List.filterMap_eq_nil_iff]
      intro e he
      exact fieldCheck_none_of_path_none csv obj e.1 e.2 (hall e he)
    simp [hnil]

/-- Claim C10 (witness): a live listing carrying none of the mapped fields
reconciles as `Found` with an empty mismatch list even though the source
record has non-empty Price and Model values. -/
theorem C10_witness :
    autotrader_compare_data [("Price", PyVal.vstr "20000"), ("Model", PyVal.vstr "Corolla")]
      (some (Obj.cons "status" (.str "live") .nil)) = .ok ("Found", []) :=
  C10_absent_path_skipped.2.2 _ (Obj.cons "status" (.str "live") .nil)
    (fun h => Obj.noConfusion h) rfl
    (by intro e he; fin_cases he <;> rfl)

/-- Claim C5: in a live-listing comparison where the source record has a
non-empty Price and the listing has an advertised price, both sides are
parsed as integers after stripping thousands separators; a Price note is
recorded iff the absolute difference exceeds 100 (and then states both
values, propagating into a `Mismatched` outcome), and a parse failure on
either side records the "Couldn\x27t compare" note instead. -/
theorem C5_price_comparison (csv : CsvRow) (obj : Obj) (v : PyVal) (a : JVal)
    (hv : rget csv "Price" = some v) (hvt : pyTruthy v = true)
    (ha : pyGetPath obj ["price", "advertised_price"] = some a)
    (hobj : obj ≠ Obj.nil) (hsc : statusCheck obj = none) :
    (∀ cp ap : Int,
        pyIntOfString (stripCommas (pyStrip (pyStr v))) = some cp →
        pyIntOfString (stripCommas (pyStrip (jStrPy a))) = some ap →
        fieldCheck csv obj ("Price", ["price", "advertised_price"])
          = (if 100 < (cp - ap).natAbs then
               some ("Price: CSV=" ++ toString cp ++ ", API=" ++ toString ap)
             else none)
        ∧ (100 < (cp - ap).natAbs →
            ∃ m, autotrader_compare_data csv (some obj) = .ok ("Mismatched", m)
              ∧ ("Price: CSV=" ++ toString cp ++ ", API=" ++ toString ap) ∈ m))
    ∧ ((pyIntOfString (stripCommas (pyStrip (pyStr v))) = none
        ∨ pyIntOfString (stripCommas (pyStrip (jStrPy a))) = none) →
        fieldCheck csv obj ("Price", ["price", "advertised_price"])
          = some "Price: Couldn\x27t compare"
        ∧ ∃ m, autotrader_compare_data csv (some obj) = .ok ("Mismatched", m)
            ∧ "Price: Couldn\x27t compare" ∈ m) := by
  have hmism : ∀ note : String,
      fieldCheck csv obj ("Price", ["price", "advertised_price"]) = some note →
      ∃ m, autotrader_compare_data csv (some obj) = .ok ("Mismatched", m) ∧ note ∈ m := by
    intro note hfc
    have hmem : note ∈ autotrader_comparison_fields.filterMap (fieldCheck csv obj) :=
      List.mem_filterMap.mpr ⟨("Price", ["price", "advertised_price"]), by decide, hfc⟩
    have hne : autotrader_comparison_fields.filterMap (fieldCheck csv obj) ≠ [] := by
      intro h0
      rw [h0] at hmem
      exact absurd hmem (List.not_mem_nil _)
    refine ⟨autotrader_comparison_fields.filterMap (fieldCheck csv obj), ?_, hmem⟩
    rw [autotrader_compare_fallthrough csv obj hobj hsc, if_neg hne]
  constructor
  · intro cp ap hcp hap
    have hfc : fieldCheck csv obj ("Price", ["price", "advertised_price"])
        = (if 100 < (cp - ap).natAbs then
             some ("Price: CSV=" ++ toString cp ++ ", API=" ++ toString ap)
           else none) := by
      simp [fieldCheck, hv, hvt, ha, hcp, hap]
    refine ⟨hfc, fun hgt => ?_⟩
    exact hmism _ (by rw [hfc, if_pos hgt])
  · intro hfail
    have hfc : fieldCheck csv obj ("Price", ["price", "advertised_price"])
        = some "Price: Couldn\x27t compare" := by
      rcases hfail with h | h
      · simp [fieldCheck, hv, hvt, ha, h]
      · cases hcp : pyIntOfString (stripCommas (pyStrip (pyStr v))) with
        | none => simp [fieldCheck, hv, hvt, ha, hcp]
        | some cp => simp [fieldCheck, hv, hvt, ha, hcp, h]
    exact ⟨hfc, hmism _ hfc⟩

/-- Claim C5 (witness): source Price 20000 against advertised 20050 records
no Price note, while advertised 20200 yields a `Mismatched` outcome whose
note states both values; a non-numeric source Price records the
"Couldn\x27t compare" note. -/
theorem C5_witness :
    fieldCheck [("Price", PyVal.vstr "20000")]
      (Obj.cons "price" (.jdict (Obj.cons "advertised_price" (.num 20050) .nil)) .nil)
      ("Price", ["price", "advertised_price"]) = none
    ∧ (∃ m, autotrader_compare_data [("Price", PyVal.vstr "20000")]
          (some (Obj.cons "price" (.jdict (Obj.cons "advertised_price" (.num 20200) .nil)) .nil))
          = .ok ("Mismatched", m) ∧ "Price: CSV=20000, API=20200" ∈ m)
    ∧ fieldCheck [("Price", PyVal.vstr "N/A")]
        (Obj.cons "price" (.jdict (Obj.cons "advertised_price" (.num 20200) .nil)) .nil)
        ("Price", ["price", "advertised_price"]) = some "Price: Couldn\x27t compare" := by
  refine ⟨?_, ?_, ?_⟩
  · have h := (C5_price_comparison [("Price", PyVal.vstr "20000")]
        (Obj.cons "price" (.jdict (Obj.cons "advertised_price" (.num 20050) .nil)) .nil)
        (PyVal.vstr "20000") (.num 20050) rfl rfl rfl
        (fun h => Obj.noConfusion h) rfl).1 20000 20050 rfl rfl
    rw [h.1]
    decide
  · exact ((C5_price_comparison [("Price", PyVal.vstr "20000")]
        (Obj.cons "price" (.jdict (Obj.cons "advertised_price" (.num 20200) .nil)) .nil)
        (PyVal.vstr "20000") (.num 20200) rfl rfl rfl
        (fun h => Obj.noConfusion h) rfl).1 20000 20200 rfl rfl).2 (by decide)
  · exact ((C5_price_comparison [("Price", PyVal.vstr "N/A")]
        (Obj.cons "price" (.jdict (Obj.cons "advertised_price" (.num 20200) .nil)) .nil)
        (PyVal.vstr "N/A") (.num 20200) rfl rfl rfl
        (fun h => Obj.noConfusion h) rfl).2 (Or.inl rfl)).1

/-- The fallback parameter dict always holds at least its four base
entries. -/
lemma fb_params_length (row : CsvRow) (d : String) (src : Option String) :
    4 ≤ (build_fallback_search_params row d src).length := by
  simp [build_fallback_search_params]

/-- The fallback parameter dict is never the two-entry primary parameter
dict, so their request events are distinct. -/
lemma fb_params_ne_primary (row : CsvRow) (d src_d s : String) (src : Option String) :
    build_fallback_search_params row d src ≠ autotrader_primary_params s src_d := by
  intro h
  have h4 := fb_params_length row d src
  rw [h] at h4
  simp [autotrader_primary_params] at h4

/-- Claim C4 (counterexample): after a 403 on the first primary attempt, the
retried primary query succeeds with a listing count of zero, a source
record is available, yet no fallback query is issued — the empty retry
result is returned directly. -/
theorem C4_counterexample :
    (autotrader_search_vehicle ⟨true, 403, ⟨some []⟩, true, 200, ⟨some []⟩, 200, ⟨some []⟩⟩
        "2020T123" "12751" (some [("Make", PyVal.vstr "Toyota")])).1 = some ⟨some []⟩
    ∧ dataNonempty ⟨some []⟩ = false
    ∧ Ev.httpGet (build_fallback_search_params [("Make", PyVal.vstr "Toyota")] "12751" none)
        ∉ (autotrader_search_vehicle ⟨true, 403, ⟨some []⟩, true, 200, ⟨some []⟩, 200, ⟨some []⟩⟩
            "2020T123" "12751" (some [("Make", PyVal.vstr "Toyota")])).2 := by
  refine ⟨rfl, rfl, ?_⟩
  decide

/-- Claim C4 (amended): with a source record available, the fallback query
is issued exactly when the bootstrap succeeded and the FIRST response to
the primary query is 200 with a listing count of zero (an empty result from
the post-403 retry is returned without fallback); the fallback parameters
carry the stripped source make, model and year verbatim, and a parsable
source Price (resp. KM) yields exactly the range value-100 .. value+100. -/
theorem C4_amended_fallback_trigger (net : SearchNet) (stock_no dealer_id : String)
    (row : CsvRow) :
    (Ev.httpGet (build_fallback_search_params row dealer_id none)
        ∈ (autotrader_search_vehicle net stock_no dealer_id (some row)).2
      ↔ net.bootstrapOk = true ∧ net.primaryCode = 200
        ∧ dataNonempty net.primaryBody = false)
    ∧ (∀ m : String, rget row "Make" = some (.vstr m) → m ≠ "" → pyStrip m = m →
        ("make", m) ∈ build_fallback_search_params row dealer_id none)
    ∧ (∀ m : String, rget row "Model" = some (.vstr m) → m ≠ "" → pyStrip m = m →
        ("model", m) ∈ build_fallback_search_params row dealer_id none)
    ∧ (∀ y : String, rget row "Year" = some (.vstr y) → y ≠ "" → pyStrip y = y →
        ("manu_year", y) ∈ build_fallback_search_params row dealer_id none)
    ∧ (∀ (v : PyVal) (p : Int), rget row "Price" = some v → pyTruthy v = true →
        pdIsna v = false → pyIntOfString (stripCommas (pyStrip (pyStr v))) = some p →
        ("priceFrom", toString (p - 100)) ∈ build_fallback_search_params row dealer_id none
        ∧ ("priceTo", toString (p + 100)) ∈ build_fallback_search_params row dealer_id none)
    ∧ (∀ (v : PyVal) (p : Int), rget row "KM" = some v → pyTruthy v = true →
        pdIsna v = false → pyIntOfString (stripCommas (pyStrip (pyStr v))) = some p →
        ("odometerFrom", toString (p - 100)) ∈ build_fallback_search_params row dealer_id none
        ∧ ("odometerTo", toString (p + 100)) ∈ build_fallback_search_params row dealer_id none) := by
  have hne : build_fallback_search_params row dealer_id none
      ≠ autotrader_primary_params stock_no dealer_id :=
    fb_params_ne_primary row dealer_id dealer_id stock_no none
  refine ⟨?_, ?_, ?_, ?_, ?_, ?_⟩
  · by_cases hb : net.bootstrapOk = false
    · simp [autotrader_search_vehicle, hb]
    · have hb' : net.bootstrapOk = true := by
        cases h : net.bootstrapOk
        · exact absurd h hb
        · rfl
      by_cases h200 : net.primaryCode = 200
      · by_cases hd : dataNonempty net.primaryBody
        · simp [autotrader_search_vehicle, hb, h200, hd, hne]
        · constructor
          · intro _
            exact ⟨hb', h200, by simpa using hd⟩
          · intro _
            by_cases hf : net.fallbackCode = 200
            · by_cases hfd : dataNonempty net.fallbackBody <;>
                simp [autotrader_search_vehicle, hb, h200, hd, hf, hfd]
            · simp [autotrader_search_vehicle, hb, h200, hd, hf]
      · by_cases h403 : net.primaryCode = 403
        · by_cases hr : net.retryCode = 200 <;>
            simp [autotrader_search_vehicle, hb, h200, h403, hr, hne]
        · simp [autotrader_search_vehicle, hb, h200, h403, hne]
  · intro m hm hm0 hstrip
    have : fb_make row = [("make", m)] := by
      simp [fb_make, hm, pyTruthy, pyStr, pdIsna, hm0, hstrip]
    simp [build_fallback_search_params, this]
  · intro m hm hm0 hstrip
    have : fb_model row = [("model", m)] := by
      simp [fb_model, hm, pyTruthy, pyStr, pdIsna, hm0, hstrip]
    simp [build_fallback_search_params, this]
  · intro y hy hy0 hstrip
    have : fb_year row = [("manu_year", y)] := by
      simp [fb_year, hy, pyTruthy, pyStr, pdIsna, hy0, hstrip]
    simp [build_fallback_search_params, this]
  · intro v p hv hvt hvna hp
    have : fb_price row = [("priceFrom", toString (p - 100)), ("priceTo", toString (p + 100))] := by
      simp [fb_price, hv, hvt, hvna, hp]
    constructor <;> simp [build_fallback_search_params, this]
  · intro v p hv hvt hvna hp
    have : fb_km row = [("odometerFrom", toString (p - 100)), ("odometerTo", toString (p + 100))] := by
      simp [fb_km, hv, hvt, hvna, hp]
    constructor <;> simp [build_fallback_search_params, this]

/-- Claim C4 (witness): a 200 primary response with zero listings issues the
fallback request, whose parameters carry the source make/model/year and the
±100 price and odometer ranges. -/
theorem C4_witness :
    Ev.httpGet (build_fallback_search_params
        [("Make", PyVal.vstr "Toyota"), ("Model", PyVal.vstr "Corolla"),
         ("Year", PyVal.vstr "2020"), ("Price", PyVal.vint 20000),
         ("KM", PyVal.vstr "45,000")] "12751" none)
      ∈ (autotrader_search_vehicle ⟨true, 200, ⟨some []⟩, true, 200, ⟨some []⟩, 200, ⟨some []⟩⟩
          "2020T123" "12751"
          (some [("Make", PyVal.vstr "Toyota"), ("Model", PyVal.vstr "Corolla"),
                 ("Year", PyVal.vstr "2020"), ("Price", PyVal.vint 20000),
                 ("KM", PyVal.vstr "45,000")])).2
    ∧ ("make", "Toyota") ∈ build_fallback_search_params
        [("Make", PyVal.vstr "Toyota"), ("Model", PyVal.vstr "Corolla"),
         ("Year", PyVal.vstr "2020"), ("Price", PyVal.vint 20000),
         ("KM", PyVal.vstr "45,000")] "12751" none
    ∧ ("model", "Corolla") ∈ build_fallback_search_params
        [("Make", PyVal.vstr "Toyota"), ("Model", PyVal.vstr "Corolla"),
         ("Year", PyVal.vstr "2020"), ("Price", PyVal.vint 20000),
         ("KM", PyVal.vstr "45,000")] "12751" none
    ∧ ("manu_year", "2020") ∈ build_fallback_search_params
        [("Make", PyVal.vstr "Toyota"), ("Model", PyVal.vstr "Corolla"),
         ("Year", PyVal.vstr "2020"), ("Price", PyVal.vint 20000),
         ("KM", PyVal.vstr "45,000")] "12751" none
    ∧ ("priceFrom", "19900") ∈ build_fallback_search_params
        [("Make", PyVal.vstr "Toyota"), ("Model", PyVal.vstr "Corolla"),
         ("Year", PyVal.vstr "2020"), ("Price", PyVal.vint 20000),
         ("KM", PyVal.vstr "45,000")] "12751" none
    ∧ ("priceTo", "20100") ∈ build_fallback_search_params
        [("Make", PyVal.vstr "Toyota"), ("Model", PyVal.vstr "Corolla"),
         ("Year", PyVal.vstr "2020"), ("Price", PyVal.vint 20000),
         ("KM", PyVal.vstr "45,000")] "12751" none
    ∧ ("odometerFrom", "44900") ∈ build_fallback_search_params
        [("Make", PyVal.vstr "Toyota"), ("Model", PyVal.vstr "Corolla"),
         ("Year", PyVal.vstr "2020"), ("Price", PyVal.vint 20000),
         ("KM", PyVal.vstr "45,000")] "12751" none
    ∧ ("odometerTo", "45100") ∈ build_fallback_search_params
        [("Make", PyVal.vstr "Toyota"), ("Model", PyVal.vstr "Corolla"),
         ("Year", PyVal.vstr "2020"), ("Price", PyVal.vint 20000),
         ("KM", PyVal.vstr "45,000")] "12751" none := by
  have h := C4_amended_fallback_trigger
    ⟨true, 200, ⟨some []⟩, true, 200, ⟨some []⟩, 200, ⟨some []⟩⟩ "2020T123" "12751"
    [("Make", PyVal.vstr "Toyota"), ("Model", PyVal.vstr "Corolla"),
     ("Year", PyVal.vstr "2020"), ("Price", PyVal.vint 20000),
     ("KM", PyVal.vstr "45,000")]
  refine ⟨h.1.mpr ⟨rfl, rfl, rfl⟩,
          h.2.1 "Toyota" rfl (by decide) rfl,
          h.2.2.1 "Corolla" rfl (by decide) rfl,
          h.2.2.2.1 "2020" rfl (by decide) rfl,
          (h.2.2.2.2.1 (PyVal.vint 20000) 20000 rfl rfl rfl rfl).1,
          (h.2.2.2.2.1 (PyVal.vint 20000) 20000 rfl rfl rfl rfl).2,
          (h.2.2.2.2.2 (PyVal.vstr "45,000") 45000 rfl rfl rfl rfl).1,
          (h.2.2.2.2.2 (PyVal.vstr "45,000") 45000 rfl rfl rfl rfl).2⟩

/-- Claim C2 (counterexample): the fallback request returns a non-200
status (500), yet the lookup is NOT reported as the error sentinel `None`
— the primary query's empty result is returned, which the orchestrator
writes as `Not Found` rather than `API Error`. -/
theorem C2_counterexample :
    (autotrader_search_vehicle ⟨true, 200, ⟨some []⟩, true, 200, ⟨some []⟩, 500, ⟨some []⟩⟩
        "2020T123" "12751" (some [("Make", PyVal.vstr "Toyota")])).1 = some ⟨some []⟩
    ∧ Ev.httpGet (build_fallback_search_params [("Make", PyVal.vstr "Toyota")] "12751" none)
        ∈ (autotrader_search_vehicle ⟨true, 200, ⟨some []⟩, true, 200, ⟨some []⟩, 500, ⟨some []⟩⟩
            "2020T123" "12751" (some [("Make", PyVal.vstr "Toyota")])).2
    ∧ processProvider [("Make", PyVal.vstr "Toyota")] (some ⟨some []⟩)
        "autotrader" "AutoTrader" autotrader_compare_data
      = .ok ("Not Found", "Vehicle not found in AutoTrader API", "") := by
  refine ⟨rfl, by decide, rfl⟩

/-- Claim C2 (amended): a 403 on the primary query triggers the 5–8 unit
wait, the user-agent rotation, a session re-bootstrap and exactly one retry
of the primary query; a non-200 retry response, and any primary response
that is neither 200 nor 403, is reported as the error sentinel `None`
(written by the orchestrator as `API Error`); a non-200 response to the
fallback query is NOT an error — the primary's empty result is returned. -/
theorem C2_amended_retry_and_error_reporting (net : SearchNet)
    (stock_no dealer_id : String) (row : Option CsvRow) :
    (net.bootstrapOk = true → net.primaryCode = 403 →
      (autotrader_search_vehicle net stock_no dealer_id row).2
        = [.getCookies, .delay 1 3,
           .httpGet (autotrader_primary_params stock_no dealer_id),
           .sleepUniform 5 8, .setUserAgent autotrader_retry_ua, .getCookies,
           .httpGet (autotrader_primary_params stock_no dealer_id)]
      ∧ (autotrader_search_vehicle net stock_no dealer_id row).1
          = (if net.retryCode = 200 then some net.retryBody else none))
    ∧ (net.primaryCode ≠ 200 → net.primaryCode ≠ 403 →
        (autotrader_search_vehicle net stock_no dealer_id row).1 = none)
    ∧ (net.bootstrapOk = false →
        (autotrader_search_vehicle net stock_no dealer_id row).1 = none)
    ∧ (∀ r : CsvRow, row = some r →
        net.bootstrapOk = true → net.primaryCode = 200 →
        dataNonempty net.primaryBody = false → net.fallbackCode ≠ 200 →
        (autotrader_search_vehicle net stock_no dealer_id row).1 = some net.primaryBody)
    ∧ (∀ r : CsvRow,
        processProvider r none "autotrader" "AutoTrader" autotrader_compare_data
          = .ok ("API Error", "Failed to retrieve data from AutoTrader API", "")) := by
  refine ⟨?_, ?_, ?_, ?_, fun _ => rfl⟩
  · intro hb h403
    have hb' : net.bootstrapOk = false → False := by simp [hb]
    constructor
    · by_cases hr : net.retryCode = 200 <;>
        simp [autotrader_search_vehicle, hb, h403, hr]
    · by_cases hr : net.retryCode = 200 <;>
        simp [autotrader_search_vehicle, hb, h403, hr]
  · intro h200 h403
    by_cases hb : net.bootstrapOk = false
    · simp [autotrader_search_vehicle, hb]
    · simp [autotrader_search_vehicle, hb, h200, h403]
  · intro hb
    simp [autotrader_search_vehicle, hb]
  · intro r hrow hb h200 hd hf
    subst hrow
    simp [autotrader_search_vehicle, hb, h200, hd, hf]

/-- Claim C2 (witness): a 403 primary followed by a 500 retry produces the
full recovery trace (wait, rotate, re-bootstrap, one retry) and the `None`
error sentinel, which the orchestrator records as `API Error`. -/
theorem C2_witness :
    (autotrader_search_vehicle ⟨true, 403, ⟨some []⟩, true, 500, ⟨some []⟩, 200, ⟨some []⟩⟩
        "2020T123" "12751" none).2
      = [.getCookies, .delay 1 3, .httpGet (autotrader_primary_params "2020T123" "12751"),
         .sleepUniform 5 8, .setUserAgent autotrader_retry_ua, .getCookies,
         .httpGet (autotrader_primary_params "2020T123" "12751")]
    ∧ (autotrader_search_vehicle ⟨true, 403, ⟨some []⟩, true, 500, ⟨some []⟩, 200, ⟨some []⟩⟩
        "2020T123" "12751" none).1 = none
    ∧ processProvider [] none "autotrader" "AutoTrader" autotrader_compare_data
        = .ok ("API Error", "Failed to retrieve data from AutoTrader API", "") := by
  have h := C2_amended_retry_and_error_reporting
    ⟨true, 403, ⟨some []⟩, true, 500, ⟨some []⟩, 200, ⟨some []⟩⟩ "2020T123" "12751" none
  refine ⟨(h.1 rfl rfl).1, ?_, h.2.2.2.2 []⟩
  have h2 := (h.1 rfl rfl).2
  simpa using h2

/-- The two comparison functions coincide (their bodies are identical). -/
lemma compare_functions_eq (csv : CsvRow) (vd : Option Obj) :
    autotrader_compare_data csv vd = carsguide_compare_data csv vd := rfl

/-- A non-raising status short-circuit only ever produces "Sold" or
"On Offer". -/
lemma statusCheck_ok_status (obj : Obj) (s : String) (m : List String)
    (h : statusCheck obj = some (.ok (s, m))) : s = "Sold" ∨ s = "On Offer" := by
  simp only [statusCheck] at h
  rcases hg : oget obj "status" with _ | v
  · rw [hg] at h
    exact absurd h (by simp [statusVerdict])
  · rw [hg] at h
    cases v with
    | str s2 =>
      simp only [statusVerdict] at h
      split_ifs at h <;> simp_all
    | num n =>
      simp only [statusVerdict] at h
      split_ifs at h
      simp_all
    | null =>
      simp [statusVerdict, jTruthy] at h
    | jdict o =>
      simp only [statusVerdict] at h
      split_ifs at h
      simp_all

/-- Every successful comparison verdict carries one of the known status
strings. -/
lemma autotrader_compare_ok_status (csv : CsvRow) (vd : Option Obj) (s : String)
    (m : List String) (h : autotrader_compare_data csv vd = .ok (s, m)) :
    s ∈ statusStrings := by
  cases vd with
  | none =>
    simp only [autotrader_compare_data] at h
    obtain ⟨rfl, -⟩ : "Not Found" = s ∧ [] = m := by simpa using h
    decide
  | some obj =>
    cases obj with
    | nil =>
      simp only [autotrader_compare_data] at h
      obtain ⟨rfl, -⟩ : "Not Found" = s ∧ [] = m := by simpa using h
      decide
    | cons k v rest =>
      simp only [autotrader_compare_data] at h
      rcases hsc : statusCheck (Obj.cons k v rest) with _ | r
      · rw [hsc] at h
        split_ifs at h with h0
        · obtain ⟨rfl, -⟩ : "Found" = s ∧ [] = m := by simpa using h
          decide
        · obtain ⟨rfl, -⟩ : "Mismatched" = s ∧ _ = m := by simpa using h
          decide
      · rw [hsc] at h
        simp only at h
        subst h
        rcases statusCheck_ok_status _ _ _ hsc with rfl | rfl <;> decide

/-- Same bound for the Carsguide comparison. -/
lemma carsguide_compare_ok_status (csv : CsvRow) (vd : Option Obj) (s : String)
    (m : List String) (h : carsguide_compare_data csv vd = .ok (s, m)) :
    s ∈ statusStrings :=
  autotrader_compare_ok_status csv vd s m ((compare_functions_eq csv vd).trans h)

/-- A successful provider phase writes one of the known status strings. -/
lemma processProvider_ok_status (row : CsvRow) (res : Option ApiResult)
    (site label : String) (cmp : CsvRow → Option Obj → Except String (String × List String))
    (hc : ∀ c v s m, cmp c v = .ok (s, m) → s ∈ statusStrings)
    (s n u : String) (h : processProvider row res site label cmp = .ok (s, n, u)) :
    s ∈ statusStrings := by
  cases res with
  | none =>
    obtain ⟨rfl, -⟩ : "API Error" = s ∧ _ := by simpa [processProvider] using h
    decide
  | some r =>
    rcases hd : r.data with _ | hits
    · simp only [processProvider, hd] at h
      obtain ⟨rfl, -⟩ : "API Error" = s ∧ _ := by simpa using h
      decide
    · simp only [processProvider, hd] at h
      split_ifs at h with h0
      · obtain ⟨rfl, -⟩ : "Not Found" = s ∧ _ := by simpa using h
        decide
      · rcases hcmp : cmp row (extract_vehicle_data (some r)) with e | ⟨st, mism⟩
        · rw [hcmp] at h
          exact absurd h (by simp)
        · rw [hcmp] at h
          obtain ⟨rfl, -⟩ : st = s ∧ _ := by simpa using h
          exact hc _ _ _ _ hcmp

/-- Both status columns of any processed row hold a known status string. -/
lemma processRow_status (row : CsvRow) (a c : Option ApiResult) (e : Option String) :
    (processRow row a c e).atStatus ∈ statusStrings
    ∧ (processRow row a c e).cgStatus ∈ statusStrings := by
  unfold processRow
  split_ifs with hs
  · exact ⟨by decide, by decide⟩
  · have hE : ("Error" : String) ∈ statusStrings := by decide
    cases e with
    | some m => exact ⟨hE, hE⟩
    | none =>
      rcases hat : processProvider row a "autotrader" "AutoTrader" autotrader_compare_data
        with e1 | ⟨a1, a2, a3⟩
      · exact ⟨hE, hE⟩
      · rcases hcg : processProvider row c "carsguide" "Carsguide" carsguide_compare_data
          with e2 | ⟨c1, c2, c3⟩
        · exact ⟨hE, hE⟩
        · exact ⟨processProvider_ok_status row a _ _ _ autotrader_compare_ok_status _ _ _ hat,
                 processProvider_ok_status row c _ _ _ carsguide_compare_ok_status _ _ _ hcg⟩

/-- The batch loop emits one output row per input row. -/
lemma processCsv_length (rows : List CsvRow)
    (net : Nat → Option ApiResult × Option ApiResult × Option String) (i : Nat) :
    (processCsv rows net i).length = rows.length := by
  induction rows generalizing i with
  | nil => rfl
  | cons r rs ih => simp [processCsv, ih]

/-- Every emitted row is the processing of some input row. -/
lemma processCsv_mem (rows : List CsvRow)
    (net : Nat → Option ApiResult × Option ApiResult × Option String) (i : Nat)
    (out : RowOut) (h : out ∈ processCsv rows net i) :
    ∃ row a c e, out = processRow row a c e := by
  induction rows generalizing i with
  | nil => exact absurd h (List.not_mem_nil _)
  | cons r rs ih =>
    rcases List.mem_cons.mp h with h1 | h1
    · exact ⟨r, (net i).1, (net i).2.1, (net i).2.2, h1⟩
    · exact ih (i + 1) h1

/-- Claim C6: a finished batch emits exactly one output row per input
record, every row carries an explicit status value for both providers, and
an exception raised inside a record's processing lands in the per-record
handler, which marks both providers `Error`, writes the message into both
Notes columns and empties both URLs. -/
theorem C6_per_record_error_isolation :
    (∀ (rows : List CsvRow)
        (net : Nat → Option ApiResult × Option ApiResult × Option String),
        (processCsv rows net 0).length = rows.length)
    ∧ (∀ (rows : List CsvRow)
          (net : Nat → Option ApiResult × Option ApiResult × Option String),
        ∀ out ∈ processCsv rows net 0,
          out.atStatus ∈ statusStrings ∧ out.cgStatus ∈ statusStrings)
    ∧ (∀ (row : CsvRow) (a c : Option ApiResult) (m : String), rowSkip row = false →
        processRow row a c (some m)
          = ⟨"Error", "Error processing: " ++ m, "",
             "Error", "Error processing: " ++ m, ""⟩) := by
  refine ⟨fun rows net => processCsv_length rows net 0, ?_, ?_⟩
  · intro rows net out hout
    obtain ⟨row, a, c, e, rfl⟩ := processCsv_mem rows net 0 out hout
    exact processRow_status row a c e
  · intro row a c m hs
    simp [processRow, hs, rowError]

/-- Claim C6 (witness): an exception while processing a well-formed record
yields the `Error` marking in all six columns, and a two-record batch emits
exactly two output rows. -/
theorem C6_witness :
    processRow [("Year", PyVal.vstr "2020"), ("StockNo", PyVal.vstr "T1")]
        (some ⟨some []⟩) (some ⟨some []⟩) (some "boom")
      = ⟨"Error", "Error processing: boom", "", "Error", "Error processing: boom", ""⟩
    ∧ (processCsv [[("Year", PyVal.vstr "2020"), ("StockNo", PyVal.vstr "T1")], []]
        (fun _ => (none, none, none)) 0).length = 2 :=
  ⟨C6_per_record_error_isolation.2.2 _ _ _ "boom" rfl,
   C6_per_record_error_isolation.1 _ _⟩

end CarScraper
